import Mathlib

/-!
Shallow embedding of `src/traffic/plugins/leaflet.py`.

The module converts aviation domain objects (flights, flight plans,
airspaces, airports, points, state vectors) into map-widget layers and
monkey-patches the map widget so that `add_layer` dispatches on the type
of the object it receives.

Coordinates are modelled with `Rat` (the code never does floating-point
arithmetic on them beyond taking column means, which we model exactly over
the non-NaN entries).  A pandas `NaN` entry is modelled as `Option.none`.
Keyword-argument dictionaries are modelled as association lists looked up
by first match; the Python merge of two dictionaries, where the second
one takes precedence, is modelled by prepending the second list (key
insertion order, which no property here observes, is not modelled).
-/

/-! ## Keyword-argument dictionaries -/

/-- A Python value that can appear as a keyword argument in this module:
strings (colors, titles), numbers (weights, opacities) and latitude
longitude pairs (map centers, where a coordinate may be NaN). -/
inductive Val where
  | str (s : String)
  | num (q : Rat)
  | center (c : Option Rat × Option Rat)
  deriving DecidableEq

/-- A Python keyword-argument dictionary. -/
abbrev Dict := List (String × Val)

/-- Dictionary lookup: first binding of the key wins. -/
def dictFind (k : String) : Dict → Option Val
  | [] => none
  | kv :: d => if kv.1 = k then some kv.2 else dictFind k d

/-- Python double-splat merge of `d1` then `d2` (bindings of `d2` take
precedence).  Realised by prepending `d2`, since `dictFind` returns the
first match; key order is not modelled. -/
def dictMerge (d1 d2 : Dict) : Dict := d2 ++ d1

/-! ## Domain objects (the external `traffic.core` collaborators)

These classes live in the `traffic.core` package, outside the plugin
source file; only the fields and methods the plugin uses are modelled,
following the spec where the plugin relies on their behaviour. -/

/-- A coordinate tuple of a shapely geometry, destructured by the code as
`(lon, lat, *rest)`: a longitude, a latitude, and possibly further
components (such as an altitude). -/
structure Coord where
  lon : Rat
  lat : Rat
  rest : List Rat
  deriving DecidableEq

/-- Modelled from the spec: one row of a flight dataframe; only the
latitude and longitude columns are relevant here.  `none` stands for a
NaN entry. -/
structure Row where
  latitude : Option Rat
  longitude : Option Rat
  deriving DecidableEq

/-- Modelled from the spec: a `Flight` as the plugin sees it — its
dataframe rows, its optional `shape` (a 3-D line string of
(longitude, latitude, altitude) coordinates, absent when there is no
valid geometry), and the HTML info string `_info_html()` returns. -/
structure Flight where
  rows : List Row
  shape : Option (List (Rat × Rat × Rat))
  info_html : String
  deriving DecidableEq

/-- Modelled from the spec: the shape of a `FlightPlan`, either a single
line string or, when not all parts could be resolved, an iterable of
line-string parts. -/
inductive FPShape where
  | lineString (coords : List Coord)
  | multiLine (parts : List (List Coord))
  deriving DecidableEq

/-- Modelled from the spec: a `FlightPlan` with its optional shape. -/
structure FlightPlan where
  shape : Option FPShape
  deriving DecidableEq

/-- One polygonal piece of a flattened airspace, with its exterior ring. -/
structure PolyPiece where
  exterior : List Coord
  deriving DecidableEq

/-- Modelled from the spec: the result of `Airspace.flatten()`: either a
single polygon or a multi-polygon iterable of pieces. -/
inductive FlatShape where
  | poly (p : PolyPiece)
  | multiPoly (pieces : List PolyPiece)
  deriving DecidableEq

/-- The shapely `geom_type` string the code inspects. -/
def FlatShape.geom_type : FlatShape → String
  | .poly _ => "Polygon"
  | .multiPoly _ => "MultiPolygon"

/-- Modelled from the spec: an `Airspace`, through its `flatten()`. -/
structure Airspace where
  flatten : FlatShape
  deriving DecidableEq

/-- Modelled from the spec: an `Airport` — its latitude longitude pair and
the runway geo-dataframe obtained from `_openstreetmap()` restricted to
runways (kept abstract as an identifier, nothing here inspects it). -/
structure Airport where
  latlon : Option Rat × Option Rat
  runway_frame : Nat
  deriving DecidableEq

/-- Modelled from the spec: a `PointMixin` — latitude and longitude
(possibly NaN), the optional `name` attribute as the string `str(name)`
(`none` when the attribute is absent), the `callsign` used by state
vectors, and the string `repr(point)` produces. -/
structure PointMixin where
  latitude : Option Rat
  longitude : Option Rat
  name : Option String
  callsign : String
  py_repr : String
  deriving DecidableEq

/-- Modelled from the spec: a `StateVectors` collection, iterated as a
list of points. -/
structure StateVectors where
  points : List PointMixin
  deriving DecidableEq

/-- Modelled from the spec: a `Traffic`, iterated as a list of flights;
its `data` dataframe is the concatenation of the flights' rows. -/
structure Traffic where
  flights : List Flight
  deriving DecidableEq

/-- The rows of `traffic.data`. -/
def Traffic.rows (t : Traffic) : List Row := t.flights.flatMap Flight.rows

/-! ## Widget layers (the external `ipyleaflet` / `ipywidgets` objects) -/

/-- Locations accepted by `Polyline` and `Polygon`: a flat list of
(latitude, longitude) pairs or a list of such lists. -/
inductive LocData where
  | single (locs : List (Rat × Rat))
  | multi (locs : List (List (Rat × Rat)))
  deriving DecidableEq

/-- The widget layers the plugin constructs.  Every widget carries an
optional popup, modelled by the string value of the attached HTML widget
(`none` when no popup was set). -/
inductive Layer where
  | polyline (locations : LocData) (kwargs : Dict) (popup : Option String)
  | polygon (locations : LocData) (kwargs : Dict) (popup : Option String)
  | marker (location : Option Rat × Option Rat) (kwargs : Dict) (popup : Option String)
  | markerCluster (markers : List Layer) (popup : Option String)
  | geoData (geo_dataframe : Nat) (style : Dict) (popup : Option String)

/-- Whether a layer is a `Polyline`. -/
def Layer.isPolyline : Layer → Bool
  | .polyline _ _ _ => true
  | _ => false

/-- Whether a layer is a `Polygon`. -/
def Layer.isPolygon : Layer → Bool
  | .polygon _ _ _ => true
  | _ => false

/-- Whether a layer is a `Marker`. -/
def Layer.isMarker : Layer → Bool
  | .marker _ _ _ => true
  | _ => false

/-- The locations of a polyline or polygon layer. -/
def Layer.locations : Layer → Option LocData
  | .polyline l _ _ => some l
  | .polygon l _ _ => some l
  | _ => none

/-- Setting `layer.popup` to an HTML widget whose value is `s`. -/
def Layer.setPopup : Layer → String → Layer
  | .polyline l k _, s => .polyline l k (some s)
  | .polygon l k _, s => .polygon l k (some s)
  | .marker l k _, s => .marker l k (some s)
  | .markerCluster m _, s => .markerCluster m (some s)
  | .geoData g st _, s => .geoData g st (some s)

/-! ## The conversion functions of `leaflet.py` -/

/-- Function `flight_leaflet`: `None` when the flight has no shape; otherwise a
`Polyline` over the shape coordinates with `(lon, lat, alt)` swapped to
`(lat, lon)`, with default `fill_opacity=0, weight=3` overridden by the
caller's keyword arguments. -/
def flight_leaflet (flight : Flight) (kwargs : Dict) : Option Layer :=
  match flight.shape with
  | none => none
  | some shape =>
    let kwargs := dictMerge [("fill_opacity", Val.num 0), ("weight", Val.num 3)] kwargs
    some (Layer.polyline (LocData.single (shape.map fun c => (c.2.1, c.1))) kwargs none)

/-- Function `flightplan_leaflet`: `None` when the flight plan has no shape;
otherwise a `Polyline` whose locations are the swapped coordinates of the
line string, or one swapped list per part when the shape is not a single
line string. -/
def flightplan_leaflet (flightplan : FlightPlan) (kwargs : Dict) : Option Layer :=
  match flightplan.shape with
  | none => none
  | some shape =>
    let coords : LocData :=
      match shape with
      | .lineString cs => LocData.single (cs.map fun c => (c.lat, c.lon))
      | .multiLine parts =>
        LocData.multi (parts.map fun s => s.map fun c => (c.lat, c.lon))
    let kwargs := dictMerge [("fill_opacity", Val.num 0), ("weight", Val.num 3)] kwargs
    some (Layer.polyline coords kwargs none)

/-- Function `airspace_leaflet`: a `Polygon` over the flattened shape — the swapped
exterior coordinates when the flattened shape is a single polygon, and
otherwise one swapped exterior list per piece. -/
def airspace_leaflet (airspace : Airspace) (kwargs : Dict) : Layer :=
  let shape := airspace.flatten
  let kwargs := dictMerge [("weight", Val.num 3)] kwargs
  match shape with
  | .poly p =>
    Layer.polygon (LocData.single (p.exterior.map fun c => (c.lat, c.lon))) kwargs none
  | .multiPoly pieces =>
    Layer.polygon
      (LocData.multi (pieces.map fun p => p.exterior.map fun c => (c.lat, c.lon)))
      kwargs none

/-- Function `airport_leaflet`: a `GeoData` over the runway dataframe with default
style `color="#79706e", weight=6` overridden by the caller. -/
def airport_leaflet (airport : Airport) (kwargs : Dict) : Layer :=
  Layer.geoData airport.runway_frame
    (dictMerge [("color", Val.str "#79706e"), ("weight", Val.num 6)] kwargs) none

/-- Function `point_leaflet`: a `Marker` at the point's (latitude, longitude),
whose popup is an HTML widget holding `repr(point)`; when the point has a
`name` attribute a default `title=str(point.name)` is supplied, overridden
by the caller's keyword arguments. -/
def point_leaflet (point : PointMixin) (kwargs : Dict) : Layer :=
  let default : Dict :=
    match point.name with
    | some n => [("title", Val.str n)]
    | none => []
  let kwargs := dictMerge default kwargs
  let marker := Layer.marker (point.latitude, point.longitude) kwargs none
  marker.setPopup point.py_repr

/-- Function `sv_leaflet`: a `MarkerCluster` of one marker per state-vector point,
each built by `point_leaflet` with `title=point.callsign` added to the
keyword arguments. -/
def sv_leaflet (sv : StateVectors) (kwargs : Dict) : Layer :=
  Layer.markerCluster
    (sv.points.map fun p => point_leaflet p (("title", Val.str p.callsign) :: kwargs))
    none

/-! ## The map widget and the patched `add_layer` -/

/-- The objects that can be handed to the patched `add_layer`: the six
domain types it dispatches on, a `FlightIterator` (which yields flight
segments), an already-built widget layer, or Python `None` (as produced
when a `leaflet()` call returns `None`). -/
inductive Elt where
  | airport (a : Airport)
  | airspace (a : Airspace)
  | flight (f : Flight)
  | flightPlan (fp : FlightPlan)
  | point (p : PointMixin)
  | stateVectors (sv : StateVectors)
  | flightIterator (segments : List Flight)
  | layer (l : Layer)
  | pynone

/-- The `ipyleaflet.Map` widget: its zoom, its remaining constructor
keyword arguments, and the list of objects added as layers. -/
structure LMap where
  zoom : Int
  kwargs : Dict
  layers : List Elt

/-- Injection of an optional layer into `Elt`, as the Python value that
`elt.leaflet(**kwargs)` returns (a layer object or `None`). -/
def optLayerElt : Option Layer → Elt
  | some l => .layer l
  | none => .pynone

/-- The original unpatched `Map.add_layer`, saved as `_old_add_layer`
before patching: it appends the object to the layer list and returns
`None` (modelled for the third-party widget, which this repository only
calls). -/
def old_add_layer (m : LMap) (e : Elt) : LMap × Option Layer :=
  ({ m with layers := m.layers ++ [e] }, none)

/-- Whether the object is an instance of one of the six special-cased
domain types `(Airport, Airspace, Flight, FlightPlan, PointMixin,
StateVectors)`. -/
def Elt.isKnownType : Elt → Bool
  | .airport _ => true
  | .airspace _ => true
  | .flight _ => true
  | .flightPlan _ => true
  | .point _ => true
  | .stateVectors _ => true
  | _ => false

/-- The `leaflet` method that `_onload` attached to the class of the
object, as looked up by `elt.leaflet(**kwargs)` in the dispatch; `none`
on the objects that have no such method (never consulted for them). -/
def leaflet_dispatch (e : Elt) (kwargs : Dict) : Option Layer :=
  match e with
  | .airport a => some (airport_leaflet a kwargs)
  | .airspace a => some (airspace_leaflet a kwargs)
  | .flight f => flight_leaflet f kwargs
  | .flightPlan fp => flightplan_leaflet fp kwargs
  | .point p => some (point_leaflet p kwargs)
  | .stateVectors sv => some (sv_leaflet sv kwargs)
  | _ => none

/-- The behaviour of the patched `add_layer` on an object that is not a
`FlightIterator`.  The recursive call that `map_add_layer` makes on the
segments of a `FlightIterator` always lands here, because every yielded
segment is a `Flight` and takes the known-type branch. -/
def map_add_layer_one (m : LMap) (e : Elt) (kwargs : Dict) : LMap × Option Layer :=
  if e.isKnownType then
    let layer := leaflet_dispatch e kwargs
    ((old_add_layer m (optLayerElt layer)).1, layer)
  else old_add_layer m e

/-- Function `map_add_layer`, the patched `add_layer`: on the six known domain
types it calls the object's `leaflet` method, hands the result to the
original `add_layer` and returns it; on a `FlightIterator` it recursively
adds every segment with the same keyword arguments and returns `None`;
otherwise it delegates to the original `add_layer`.  The recursion is
unfolded one step through `map_add_layer_one`, which agrees with this
function on every segment. -/
def map_add_layer (m : LMap) (e : Elt) (kwargs : Dict) : LMap × Option Layer :=
  if e.isKnownType then
    let layer := leaflet_dispatch e kwargs
    ((old_add_layer m (optLayerElt layer)).1, layer)
  else
    match e with
    | .flightIterator segments =>
      (segments.foldl
        (fun acc f => (map_add_layer_one acc (.flight f) kwargs).1) m, none)
    | _ => old_add_layer m e

/-! ## Spec-modelled `traffic.core` query helpers -/

/-- Modelled from the spec: the truthiness of
`flight.query("latitude == latitude")` — the `Flight.query` of the core
package returns a falsy value exactly when no row has a non-NaN
latitude. -/
def hasValidLatitude (flight : Flight) : Bool :=
  flight.rows.any fun r => r.latitude.isSome

/-- Modelled from the spec: the composite
`flight.query("latitude == latitude").at()` of the core package — the
last row with a non-NaN latitude, `none` when there is none (the spec
describes an early return of `None` when no valid position exists). -/
def lastValidPosition (flight : Flight) : Option Row :=
  (flight.rows.filter fun r => r.latitude.isSome).getLast?

/-- The pandas mean of the latitude column: NaN entries are skipped, and
the mean of an all-NaN column is NaN (`none`). -/
def meanLatitude (rows : List Row) : Option Rat :=
  let vs := rows.filterMap Row.latitude
  if vs.isEmpty then none else some (vs.sum / vs.length)

/-- The pandas mean of the longitude column, as `meanLatitude`. -/
def meanLongitude (rows : List Row) : Option Rat :=
  let vs := rows.filterMap Row.longitude
  if vs.isEmpty then none else some (vs.sum / vs.length)

/-! ## The `map_leaflet` functions -/

/-- A value of the `highlight` dictionary: a string naming a `Flight`
attribute, a `Flight`, or a callable from a flight to an optional
flight. -/
inductive HighlightVal where
  | str (s : String)
  | flight (f : Flight)
  | func (fn : Flight → Option Flight)

/-- Modelled from the spec: the `airports` database of `traffic.data`,
indexed by airport name, passed explicitly to the embedding. -/
abbrev AirportsDB := String → Option Airport

/-- Modelled from the spec: `getattr(Flight, name, None)` on the `Flight`
class namespace, restricted to the flight-to-optional-flight attributes
the highlight loop calls, passed explicitly to the embedding. -/
abbrev FlightGetattr := String → Option (Flight → Option Flight)

/-- One iteration of the highlight loop shared by `traffic_map_leaflet`
and `flight_map_leaflet`: resolve a string through `getattr` (skipping
unknown names), evaluate a callable on the flight, and add the resulting
flight, when there is one, with `color=color`. -/
def highlight_step (flightGetattr : FlightGetattr) (flight : Flight)
    (m : LMap) : String × HighlightVal → LMap
  | (color, v) =>
    let value : Option (Flight ⊕ (Flight → Option Flight)) :=
      match v with
      | .str s => (flightGetattr s).map Sum.inr
      | .flight f => some (Sum.inl f)
      | .func fn => some (Sum.inr fn)
    match value with
    | none => m
    | some value =>
      let f : Option Flight :=
        match value with
        | Sum.inl f => some f
        | Sum.inr fn => fn flight
      match f with
      | none => m
      | some f => (map_add_layer m (.flight f) [("color", Val.str color)]).1

/-- Replacing the last element of a list, as the aliased update of the
layer object that `add_layer` has just appended. -/
def updateLast (l : List Elt) (e : Elt) : List Elt := l.dropLast ++ [e]

/-- The resolution `airports[airport] if isinstance(airport, str) else
airport` of the optional airport argument. -/
def resolveAirport (airports : AirportsDB) :
    Option (String ⊕ Airport) → Option Airport
  | none => none
  | some (Sum.inl s) => airports s
  | some (Sum.inr a) => some a

/-- The default-center step: when `center` is not among the keyword
arguments, set it to the airport's latlon or to the column means of the
given rows. -/
def defaultCenter (kwargs : Dict) (airport : Option Airport)
    (rows : List Row) : Dict :=
  if (dictFind "center" kwargs).isSome then kwargs
  else
    match airport with
    | some a => kwargs ++ [("center", Val.center a.latlon)]
    | none => kwargs ++ [("center", Val.center (meanLatitude rows, meanLongitude rows))]

/-- The body of the `for flight in traffic` loop of
`traffic_map_leaflet`: when the flight has a non-NaN latitude, add it as
a layer and attach a popup holding `_info_html()` to the returned layer —
a step that raises `AttributeError` when `add_layer` returned `None`
(which happens when the flight has no shape); then process the highlight
dictionary for this flight. -/
def traffic_flight_step (flightGetattr : FlightGetattr)
    (highlight : List (String × HighlightVal)) (m : LMap) (flight : Flight) :
    Except String LMap :=
  let withLayer : Except String LMap :=
    if hasValidLatitude flight then
      let r := map_add_layer m (.flight flight) []
      match r.2 with
      | none => .error "AttributeError: NoneType object has no attribute popup"
      | some l =>
        .ok { r.1 with
              layers := updateLast r.1.layers (.layer (l.setPopup flight.info_html)) }
    else .ok m
  match withLayer with
  | .error e => .error e
  | .ok m => .ok (highlight.foldl (highlight_step flightGetattr flight) m)

/-- The map that `traffic_map_leaflet` builds before its flight loop:
`Map(zoom=zoom, **kwargs)` with the default center applied, plus the
airport layer when an airport was given. -/
def trafficInitMap (airports : AirportsDB) (traffic : Traffic) (zoom : Int)
    (airport : Option (String ⊕ Airport)) (kwargs : Dict) : LMap :=
  let _airport := resolveAirport airports airport
  let kwargs := defaultCenter kwargs _airport (Traffic.rows traffic)
  let m : LMap := { zoom := zoom, kwargs := kwargs, layers := [] }
  match _airport with
  | some a => (map_add_layer m (.airport a) []).1
  | none => m

/-- Function `traffic_map_leaflet`: build a `Map` centered on the airport or on
the mean position, add the airport when given, then process every flight
of the traffic; a raised Python exception is modelled as `.error`. -/
def traffic_map_leaflet (airports : AirportsDB)
    (flightGetattr : FlightGetattr) (traffic : Traffic) (zoom : Int)
    (highlight : Option (List (String × HighlightVal)))
    (airport : Option (String ⊕ Airport)) (kwargs : Dict) :
    Except String (Option LMap) :=
  let hl := highlight.getD []
  match traffic.flights.foldlM (traffic_flight_step flightGetattr hl)
      (trafficInitMap airports traffic zoom airport kwargs) with
  | .error e => .error e
  | .ok m => .ok (some m)

/-- Function `flight_map_leaflet`: return `None` when the flight has no valid
position; otherwise build a `Map` as above, add the flight with a popup
holding `_info_html()` — raising `AttributeError` when `add_layer`
returned `None` because the flight has no shape — then process the
highlight dictionary. -/
def flight_map_leaflet (airports : AirportsDB)
    (flightGetattr : FlightGetattr) (flight : Flight) (zoom : Int)
    (highlight : Option (List (String × HighlightVal)))
    (airport : Option (String ⊕ Airport)) (kwargs : Dict) :
    Except String (Option LMap) :=
  match lastValidPosition flight with
  | none => .ok none
  | some _ =>
    let _airport := resolveAirport airports airport
    let kwargs := defaultCenter kwargs _airport flight.rows
    let m : LMap := { zoom := zoom, kwargs := kwargs, layers := [] }
    let m :=
      match _airport with
      | some a => (map_add_layer m (.airport a) []).1
      | none => m
    let r := map_add_layer m (.flight flight) []
    match r.2 with
    | none => .error "AttributeError: NoneType object has no attribute popup"
    | some l =>
      let m :=
        { r.1 with
          layers := updateLast r.1.layers (.layer (l.setPopup flight.info_html)) }
      let hl := highlight.getD []
      .ok (some (hl.foldl (highlight_step flightGetattr flight) m))

/-! ## The load hook `_onload` -/

/-- The signature of the `map_leaflet` method attached to `Flight`. -/
abbrev FlightMapFn :=
  AirportsDB → FlightGetattr → Flight → Int →
    Option (List (String × HighlightVal)) → Option (String ⊕ Airport) →
    Dict → Except String (Option LMap)

/-- The signature of the `map_leaflet` method attached to `Traffic`. -/
abbrev TrafficMapFn :=
  AirportsDB → FlightGetattr → Traffic → Int →
    Option (List (String × HighlightVal)) → Option (String ⊕ Airport) →
    Dict → Except String (Option LMap)

/-- The mutable class attributes that `_onload` assigns: the `leaflet`
slot of each of the six domain classes, the `map_leaflet` slot of
`Flight` and `Traffic`, and the `add_layer` slot of the map widget
class (`none` models an absent attribute). -/
structure Classes where
  Airport_leaflet : Option (Airport → Dict → Layer)
  Airspace_leaflet : Option (Airspace → Dict → Layer)
  Flight_leaflet : Option (Flight → Dict → Option Layer)
  FlightPlan_leaflet : Option (FlightPlan → Dict → Option Layer)
  PointMixin_leaflet : Option (PointMixin → Dict → Layer)
  StateVectors_leaflet : Option (StateVectors → Dict → Layer)
  Flight_map_leaflet : Option FlightMapFn
  Traffic_map_leaflet : Option TrafficMapFn
  Map_add_layer : LMap → Elt → Dict → LMap × Option Layer

/-- Function `_onload`: the nine `setattr` calls run when the plugin is loaded. -/
def onload (c : Classes) : Classes :=
  { c with
    Airport_leaflet := some airport_leaflet
    Airspace_leaflet := some airspace_leaflet
    Flight_leaflet := some flight_leaflet
    FlightPlan_leaflet := some flightplan_leaflet
    PointMixin_leaflet := some point_leaflet
    StateVectors_leaflet := some sv_leaflet
    Flight_map_leaflet := some flight_map_leaflet
    Traffic_map_leaflet := some traffic_map_leaflet
    Map_add_layer := map_add_layer }

/-! ## Observation helpers -/

/-- Whether a call modelled in the `Except` monad completed normally and
returned a `Map` (rather than `None` or a raised exception). -/
def isOkSomeMap : Except String (Option LMap) → Bool
  | .ok (some _) => true
  | _ => false

/-- The locations of an optional layer. -/
def optLocations : Option Layer → Option LocData
  | some l => l.locations
  | none => none

/-- The location of a marker layer. -/
def markerLocation : Layer → Option (Option Rat × Option Rat)
  | .marker loc _ _ => some loc
  | _ => none

/-- The keyword argument `k` a marker layer was constructed with. -/
def markerKwarg (k : String) : Layer → Option Val
  | .marker _ kw _ => dictFind k kw
  | _ => none

/-- The popup value of a layer. -/
def Layer.popupValue : Layer → Option String
  | .polyline _ _ p => p
  | .polygon _ _ p => p
  | .marker _ _ p => p
  | .markerCluster _ p => p
  | .geoData _ _ p => p

/-! ## Unfolding lemmas -/

/-- On the six known domain types, the patched `add_layer` calls the
attached `leaflet` method, appends its result through the original
`add_layer`, and returns it. -/
theorem map_add_layer_known (m : LMap) (e : Elt) (kwargs : Dict)
    (h : e.isKnownType = true) :
    map_add_layer m e kwargs =
      ((old_add_layer m (optLayerElt (leaflet_dispatch e kwargs))).1,
        leaflet_dispatch e kwargs) := by
  cases e
  case flightIterator segs => simp [Elt.isKnownType] at h
  case layer l => simp [Elt.isKnownType] at h
  case pynone => simp [Elt.isKnownType] at h
  all_goals rw [map_add_layer]
  all_goals first | rfl | (intro s hs; cases hs)

/-- Specialisation of `map_add_layer_known` to a flight. -/
theorem map_add_layer_flight (m : LMap) (f : Flight) (kwargs : Dict) :
    map_add_layer m (.flight f) kwargs =
      ({ m with layers := m.layers ++ [optLayerElt (flight_leaflet f kwargs)] },
        flight_leaflet f kwargs) :=
  map_add_layer_known m (.flight f) kwargs rfl

/-- On a `FlightIterator`, the patched `add_layer` folds itself over the
segments and returns `None`. -/
theorem map_add_layer_iterator (m : LMap) (segments : List Flight) (kwargs : Dict) :
    map_add_layer m (.flightIterator segments) kwargs =
      (segments.foldl (fun acc f => (map_add_layer acc (.flight f) kwargs).1) m,
        none) := rfl

/-- On anything that is neither a known domain type nor a
`FlightIterator`, the patched `add_layer` is the original one. -/
theorem map_add_layer_default (m : LMap) (e : Elt) (kwargs : Dict)
    (h : e.isKnownType = false) (h2 : ∀ fs, e ≠ .flightIterator fs) :
    map_add_layer m e kwargs = old_add_layer m e := by
  cases e
  case flightIterator fs => exact absurd rfl (h2 fs)
  case layer l =>
    rw [map_add_layer]
    all_goals first | rfl | (intro s hs; cases hs)
  case pynone =>
    rw [map_add_layer]
    all_goals first | rfl | (intro s hs; cases hs)
  all_goals simp [Elt.isKnownType] at h

/-- Folding the flight case of the patched `add_layer` over a list of
segments appends one converted layer per segment, in order. -/
theorem foldl_add_flight (segments : List Flight) (kwargs : Dict) (m : LMap) :
    segments.foldl (fun acc f => (map_add_layer acc (.flight f) kwargs).1) m =
      { m with
        layers := m.layers ++ segments.map fun f => optLayerElt (flight_leaflet f kwargs) } := by
  induction segments generalizing m with
  | nil => simp
  | cons f fs ih =>
    simp only [List.foldl_cons]
    rw [map_add_layer_flight, ih]
    simp

/-- A binding present in `d1` survives on the left of an append. -/
theorem dictFind_append_of_some {k : String} {d1 : Dict} {v : Val} (d2 : Dict)
    (h : dictFind k d1 = some v) : dictFind k (d1 ++ d2) = some v := by
  induction d1 with
  | nil => simp [dictFind] at h
  | cons kv d ih =>
    by_cases hk : kv.1 = k
    · simpa [dictFind, hk] using h
    · simp only [dictFind, hk, if_false, List.cons_append] at *
      exact ih h

/-- A key absent from `d1` is looked up in `d2` after an append. -/
theorem dictFind_append_of_none {k : String} {d1 : Dict} (d2 : Dict)
    (h : dictFind k d1 = none) : dictFind k (d1 ++ d2) = dictFind k d2 := by
  induction d1 with
  | nil => rfl
  | cons kv d ih =>
    by_cases hk : kv.1 = k
    · simp [dictFind, hk] at h
    · simp only [dictFind, hk, if_false, List.cons_append] at *
      exact ih h

/-- A flight with no non-NaN latitude is skipped by the traffic loop:
only its highlight entries are processed, nothing can be raised, and no
layer or popup for the flight itself is added. -/
theorem traffic_flight_step_skip (g : FlightGetattr)
    (hl : List (String × HighlightVal)) (m : LMap) (f : Flight)
    (h : hasValidLatitude f = false) :
    traffic_flight_step g hl m f = .ok (hl.foldl (highlight_step g f) m) := by
  simp [traffic_flight_step, h]

/-- The traffic loop body completes normally on every flight that has a
shape whenever it has a valid latitude. -/
theorem traffic_flight_step_ok (g : FlightGetattr)
    (hl : List (String × HighlightVal)) (m : LMap) (f : Flight)
    (h : hasValidLatitude f = true → f.shape ≠ none) :
    ∃ m2, traffic_flight_step g hl m f = .ok m2 := by
  by_cases hv : hasValidLatitude f
  · cases hsh : f.shape with
    | none => exact absurd hsh (h hv)
    | some cs =>
      simp only [traffic_flight_step, hv, if_true, map_add_layer_flight,
        flight_leaflet, hsh]
      exact ⟨_, rfl⟩
  · exact ⟨_, traffic_flight_step_skip g hl m f (by simpa using hv)⟩

/-- The whole traffic loop completes normally when every flight with a
valid latitude has a shape. -/
theorem foldlM_traffic_ok (g : FlightGetattr)
    (hl : List (String × HighlightVal)) (flights : List Flight)
    (h : ∀ f ∈ flights, hasValidLatitude f = true → f.shape ≠ none) :
    ∀ m, ∃ m2, flights.foldlM (traffic_flight_step g hl) m = Except.ok m2 := by
  induction flights with
  | nil => exact fun m => ⟨m, rfl⟩
  | cons f fs ih =>
    intro m
    obtain ⟨m1, hm1⟩ := traffic_flight_step_ok g hl m f (h f (by simp))
    obtain ⟨m2, hm2⟩ := ih (fun f2 hf2 => h f2 (by simp [hf2])) m1
    refine ⟨m2, ?_⟩
    rw [List.foldlM_cons, hm1]
    exact hm2

/-! ## Concrete sample objects used by witnesses and counterexamples -/

/-- A dataframe row with a valid position. -/
def exRowValid : Row := { latitude := some 1, longitude := some 2 }

/-- A dataframe row with NaN latitude and longitude. -/
def exRowNaN : Row := { latitude := none, longitude := none }

/-- A sample two-point 3-D line string. -/
def exShape : List (Rat × Rat × Rat) := [(1, 2, 3), (4, 5, 6)]

/-- A flight with a valid position and a shape. -/
def exShapedFlight : Flight :=
  { rows := [exRowValid], shape := some exShape, info_html := "info1" }

/-- A flight with a valid position but no shape (as happens when fewer
than two coordinates are valid). -/
def exCrashFlight : Flight :=
  { rows := [exRowValid], shape := none, info_html := "info2" }

/-- A flight with no non-NaN latitude. -/
def exNaNFlight : Flight :=
  { rows := [exRowNaN], shape := none, info_html := "info3" }

/-- A flight plan whose shape is a single line string. -/
def exFlightPlan : FlightPlan :=
  { shape := some (.lineString [⟨1, 2, []⟩]) }

/-- An airspace that flattens to a single polygon. -/
def exAirspace : Airspace := { flatten := .poly { exterior := [⟨1, 2, []⟩] } }

/-- An airspace that flattens to a multi-polygon. -/
def exAirspaceMulti : Airspace :=
  { flatten := .multiPoly [{ exterior := [⟨1, 2, []⟩] }] }

/-- A point with a name attribute. -/
def exPoint : PointMixin :=
  { latitude := some 1, longitude := some 2, name := some "P",
    callsign := "CS", py_repr := "point P" }

/-- An empty airports database. -/
def exAirportsDB : AirportsDB := fun _ => none

/-- A `Flight` class namespace with no resolvable attributes. -/
def exGetattr : FlightGetattr := fun _ => none

/-- A plain sample widget layer. -/
def exLayer : Layer := Layer.marker (some 0, some 0) [] none

/-- An empty sample map. -/
def exMap : LMap := { zoom := 7, kwargs := [], layers := [] }

/-! ## Claim theorems -/

/-- C1: for every map, element and keyword arguments, the patched
`add_layer` on an instance of one of the six known domain types calls the
attached `leaflet` method with those keyword arguments, adds the
resulting layer to the map through the original `add_layer`, and returns
that layer; on anything that is neither of those types nor a
`FlightIterator` it delegates the element unchanged to the original
`add_layer` and returns its result. -/
theorem C1_map_add_layer_dispatch (m : LMap) (e : Elt) (kwargs : Dict) :
    (e.isKnownType = true →
      map_add_layer m e kwargs =
        ((old_add_layer m (optLayerElt (leaflet_dispatch e kwargs))).1,
          leaflet_dispatch e kwargs)) ∧
    (e.isKnownType = false → (∀ segs, e ≠ .flightIterator segs) →
      map_add_layer m e kwargs = old_add_layer m e) :=
  ⟨map_add_layer_known m e kwargs, map_add_layer_default m e kwargs⟩

/-- Witness for C1: the dispatch on a concrete flight and the delegation
on a concrete plain layer. -/
theorem C1_witness :
    map_add_layer exMap (.flight exShapedFlight) [] =
      ((old_add_layer exMap
          (optLayerElt (leaflet_dispatch (.flight exShapedFlight) []))).1,
        leaflet_dispatch (.flight exShapedFlight) []) ∧
    map_add_layer exMap (.layer exLayer) [] = old_add_layer exMap (.layer exLayer) :=
  ⟨(C1_map_add_layer_dispatch exMap (.flight exShapedFlight) []).1 rfl,
    (C1_map_add_layer_dispatch exMap (.layer exLayer) []).2 rfl
      (fun _ h => Elt.noConfusion h)⟩

/-- C2: after the load hook runs, each of the six domain classes has its
`leaflet` attribute set to the corresponding conversion function. -/
theorem C2_onload_attaches_leaflet (c : Classes) :
    (onload c).Airport_leaflet = some airport_leaflet ∧
    (onload c).Airspace_leaflet = some airspace_leaflet ∧
    (onload c).Flight_leaflet = some flight_leaflet ∧
    (onload c).FlightPlan_leaflet = some flightplan_leaflet ∧
    (onload c).PointMixin_leaflet = some point_leaflet ∧
    (onload c).StateVectors_leaflet = some sv_leaflet :=
  ⟨rfl, rfl, rfl, rfl, rfl, rfl⟩

/-- C3: after the load hook runs, `Flight.map_leaflet` is
`flight_map_leaflet`, `Traffic.map_leaflet` is `traffic_map_leaflet`,
and the map widget's `add_layer` is replaced by `map_add_layer`. -/
theorem C3_onload_attaches_map_leaflet (c : Classes) :
    (onload c).Flight_map_leaflet = some flight_map_leaflet ∧
    (onload c).Traffic_map_leaflet = some traffic_map_leaflet ∧
    (onload c).Map_add_layer = map_add_layer :=
  ⟨rfl, rfl, rfl⟩

/-- C4: `flight_leaflet` returns `None` exactly when the flight's shape
is `None` and otherwise returns a `Polyline`; `flightplan_leaflet`
likewise for a flight plan. -/
theorem C4_leaflet_none_iff_shape_none (f : Flight) (fp : FlightPlan) (kwargs : Dict) :
    (flight_leaflet f kwargs = none ↔ f.shape = none) ∧
    (∀ l, flight_leaflet f kwargs = some l → l.isPolyline = true) ∧
    (flightplan_leaflet fp kwargs = none ↔ fp.shape = none) ∧
    (∀ l, flightplan_leaflet fp kwargs = some l → l.isPolyline = true) := by
  refine ⟨?_, ?_, ?_, ?_⟩
  · cases h : f.shape <;> simp [flight_leaflet, h]
  · intro l hl
    cases h : f.shape with
    | none => simp [flight_leaflet, h] at hl
    | some s =>
      simp only [flight_leaflet, h] at hl
      injection hl with h2
      subst h2
      rfl
  · cases h : fp.shape <;> simp [flightplan_leaflet, h]
  · intro l hl
    cases h : fp.shape with
    | none => simp [flightplan_leaflet, h] at hl
    | some s =>
      simp only [flightplan_leaflet, h] at hl
      injection hl with h2
      subst h2
      rfl

/-- Witness for C4: the polyline cases at concrete inputs. -/
theorem C4_witness :
    (flight_leaflet exShapedFlight [] = none ↔ exShapedFlight.shape = none) ∧
    Layer.isPolyline
        (Layer.polyline (LocData.single [(2, 1), (5, 4)])
          (dictMerge [("fill_opacity", Val.num 0), ("weight", Val.num 3)] []) none) =
      true :=
  ⟨(C4_leaflet_none_iff_shape_none exShapedFlight exFlightPlan []).1,
    (C4_leaflet_none_iff_shape_none exShapedFlight exFlightPlan []).2.1 _ rfl⟩

/-- C6: on a flight whose shape is a line string, the polyline's
locations are exactly the shape coordinates with every
(longitude, latitude, altitude) triple mapped to (latitude, longitude),
in order; likewise for a flight plan whose shape is a line string. -/
theorem C6_polyline_locations (f : Flight) (fp : FlightPlan) (kwargs : Dict)
    (cs : List (Rat × Rat × Rat)) (ds : List Coord) :
    (f.shape = some cs →
      optLocations (flight_leaflet f kwargs) =
        some (LocData.single (cs.map fun c => (c.2.1, c.1)))) ∧
    (fp.shape = some (FPShape.lineString ds) →
      optLocations (flightplan_leaflet fp kwargs) =
        some (LocData.single (ds.map fun c => (c.lat, c.lon)))) := by
  constructor
  · intro h
    simp [flight_leaflet, h, optLocations, Layer.locations]
  · intro h
    simp [flightplan_leaflet, h, optLocations, Layer.locations]

/-- Witness for C6: the location lists computed at concrete inputs. -/
theorem C6_witness :
    optLocations (flight_leaflet exShapedFlight []) =
      some (LocData.single [(2, 1), (5, 4)]) ∧
    optLocations (flightplan_leaflet exFlightPlan []) =
      some (LocData.single [(2, 1)]) :=
  ⟨(C6_polyline_locations exShapedFlight exFlightPlan [] exShape [⟨1, 2, []⟩]).1 rfl,
    (C6_polyline_locations exShapedFlight exFlightPlan [] exShape [⟨1, 2, []⟩]).2 rfl⟩

/-- C7: `airspace_leaflet` always returns a `Polygon`; when the
flattened shape is a single polygon (`geom_type` is the string
`"Polygon"`, that is, the `.poly` case), the locations are its swapped
exterior coordinates, and otherwise one swapped exterior list per piece,
in iteration order. -/
theorem C7_airspace_polygon (a : Airspace) (kwargs : Dict) (p : PolyPiece)
    (ps : List PolyPiece) :
    (airspace_leaflet a kwargs).isPolygon = true ∧
    (a.flatten = .poly p →
      (airspace_leaflet a kwargs).locations =
        some (LocData.single (p.exterior.map fun c => (c.lat, c.lon)))) ∧
    (a.flatten = .multiPoly ps →
      (airspace_leaflet a kwargs).locations =
        some (LocData.multi (ps.map fun q => q.exterior.map fun c => (c.lat, c.lon)))) := by
  refine ⟨?_, ?_, ?_⟩
  · cases h : a.flatten <;> simp [airspace_leaflet, h, Layer.isPolygon]
  · intro h
    simp [airspace_leaflet, h, Layer.locations]
  · intro h
    simp [airspace_leaflet, h, Layer.locations]

/-- Witness for C7: both polygon shapes at concrete airspaces. -/
theorem C7_witness :
    (airspace_leaflet exAirspace []).locations = some (LocData.single [(2, 1)]) ∧
    (airspace_leaflet exAirspaceMulti []).locations =
      some (LocData.multi [[(2, 1)]]) :=
  ⟨(C7_airspace_polygon exAirspace [] ⟨[⟨1, 2, []⟩]⟩ []).2.1 rfl,
    (C7_airspace_polygon exAirspaceMulti [] ⟨[]⟩ [⟨[⟨1, 2, []⟩]⟩]).2.2 rfl⟩

/-- C9: on a `FlightIterator`, the patched `add_layer` recursively adds
every yielded segment with the same keyword arguments — appending one
converted layer per segment, in order — and returns `None`. -/
theorem C9_flight_iterator_recursion (m : LMap) (segments : List Flight)
    (kwargs : Dict) :
    map_add_layer m (.flightIterator segments) kwargs =
      (segments.foldl (fun acc f => (map_add_layer acc (.flight f) kwargs).1) m,
        none) ∧
    map_add_layer m (.flightIterator segments) kwargs =
      ({ m with
          layers := m.layers ++
            segments.map fun f => optLayerElt (flight_leaflet f kwargs) },
        none) := by
  refine ⟨map_add_layer_iterator m segments kwargs, ?_⟩
  rw [map_add_layer_iterator, foldl_add_flight]

/-- C10: on a point with non-None latitude and longitude, `point_leaflet`
returns a `Marker` located at (latitude, longitude) whose popup is an
HTML widget holding `repr(point)`; a caller-supplied keyword argument
always wins, and when the point has a `name` attribute and no `title`
keyword argument is passed, the marker's title is `str(point.name)`. -/
theorem C10_point_marker (point : PointMixin) (kwargs : Dict) (la lo : Rat)
    (hla : point.latitude = some la) (hlo : point.longitude = some lo) :
    (point_leaflet point kwargs).isMarker = true ∧
    markerLocation (point_leaflet point kwargs) = some (some la, some lo) ∧
    (point_leaflet point kwargs).popupValue = some point.py_repr ∧
    (∀ k v, dictFind k kwargs = some v →
      markerKwarg k (point_leaflet point kwargs) = some v) ∧
    (∀ n, point.name = some n → dictFind "title" kwargs = none →
      markerKwarg "title" (point_leaflet point kwargs) = some (Val.str n)) := by
  refine ⟨?_, ?_, ?_, ?_, ?_⟩
  · cases hn : point.name <;>
      simp [point_leaflet, hn, Layer.setPopup, Layer.isMarker]
  · cases hn : point.name <;>
      simp [point_leaflet, hn, Layer.setPopup, markerLocation, hla, hlo]
  · cases hn : point.name <;>
      simp [point_leaflet, hn, Layer.setPopup, Layer.popupValue]
  · intro k v hkv
    cases hn : point.name with
    | none =>
      simp only [point_leaflet, hn, Layer.setPopup, markerKwarg, dictMerge]
      exact dictFind_append_of_some [] hkv
    | some n =>
      simp only [point_leaflet, hn, Layer.setPopup, markerKwarg, dictMerge]
      exact dictFind_append_of_some [("title", Val.str n)] hkv
  · intro n hn htitle
    simp only [point_leaflet, hn, Layer.setPopup, markerKwarg, dictMerge]
    rw [dictFind_append_of_none [("title", Val.str n)] htitle]
    rfl

/-- Witness for C10: the default title from the name at a concrete point,
and a caller-supplied title overriding it. -/
theorem C10_witness :
    markerKwarg "title" (point_leaflet exPoint []) = some (Val.str "P") ∧
    markerKwarg "title" (point_leaflet exPoint [("title", Val.str "T")]) =
      some (Val.str "T") :=
  ⟨(C10_point_marker exPoint [] 1 2 rfl rfl).2.2.2.2 "P" rfl rfl,
    (C10_point_marker exPoint [("title", Val.str "T")] 1 2 rfl rfl).2.2.2.1
      "title" (Val.str "T") rfl⟩

/-- Counterexample to C5 as stated: a flight with one valid position but
no shape (as happens when fewer than two coordinates are valid) makes
`flight_map_leaflet` raise `AttributeError` at `elt.popup = HTML()` —
it neither returns `None` nor returns a `Map`. -/
theorem C5_counterexample :
    flight_map_leaflet exAirportsDB exGetattr exCrashFlight 7 none none [] =
      Except.error "AttributeError: NoneType object has no attribute popup" ∧
    (lastValidPosition exCrashFlight).isSome = true :=
  ⟨rfl, rfl⟩

/-- C5 (amended): `flight_map_leaflet` returns `None` exactly when the
flight has no valid position; when it has one, it returns a `Map`
provided the flight's shape is not `None`, and raises `AttributeError`
on the popup assignment when the shape is `None`. -/
theorem C5_flight_map_leaflet (airports : AirportsDB) (g : FlightGetattr)
    (flight : Flight) (zoom : Int)
    (highlight : Option (List (String × HighlightVal)))
    (airport : Option (String ⊕ Airport)) (kwargs : Dict) :
    (flight_map_leaflet airports g flight zoom highlight airport kwargs =
        Except.ok none ↔ lastValidPosition flight = none) ∧
    (lastValidPosition flight ≠ none → flight.shape ≠ none →
      isOkSomeMap
        (flight_map_leaflet airports g flight zoom highlight airport kwargs) =
        true) ∧
    (lastValidPosition flight ≠ none → flight.shape = none →
      flight_map_leaflet airports g flight zoom highlight airport kwargs =
        Except.error "AttributeError: NoneType object has no attribute popup") := by
  cases hv : lastValidPosition flight with
  | none => simp [flight_map_leaflet, hv, isOkSomeMap]
  | some p =>
    cases hsh : flight.shape with
    | none =>
      simp [flight_map_leaflet, hv, map_add_layer_flight, flight_leaflet, hsh,
        isOkSomeMap]
    | some cs =>
      simp [flight_map_leaflet, hv, map_add_layer_flight, flight_leaflet, hsh,
        isOkSomeMap]

/-- Witness for C5: a map is produced for a shaped flight, and the
exception for a positioned but shapeless flight. -/
theorem C5_witness :
    isOkSomeMap
        (flight_map_leaflet exAirportsDB exGetattr exShapedFlight 7 none none []) =
      true ∧
    flight_map_leaflet exAirportsDB exGetattr exCrashFlight 7 none none [] =
      Except.error "AttributeError: NoneType object has no attribute popup" :=
  ⟨(C5_flight_map_leaflet exAirportsDB exGetattr exShapedFlight 7 none none []).2.1
      (by decide) (by decide),
    (C5_flight_map_leaflet exAirportsDB exGetattr exCrashFlight 7 none none []).2.2
      (by decide) rfl⟩

/-- Counterexample to C8 as stated: a traffic holding one flight with a
valid latitude but no shape makes `traffic_map_leaflet` raise
`AttributeError` at `elt.popup = HTML()` instead of returning a `Map`. -/
theorem C8_counterexample :
    traffic_map_leaflet exAirportsDB exGetattr { flights := [exCrashFlight] } 7
        none none [] =
      Except.error "AttributeError: NoneType object has no attribute popup" :=
  rfl

/-- C8 (amended): `traffic_map_leaflet` never returns `None`; it returns
a `Map` whenever every flight with a non-NaN latitude has a shape
(otherwise the popup assignment raises `AttributeError`); a flight with
no non-NaN latitude is skipped without an early return — its loop
iteration adds no layer or popup of its own and only processes the
highlight entries. -/
theorem C8_traffic_map_leaflet (airports : AirportsDB) (g : FlightGetattr)
    (traffic : Traffic) (zoom : Int)
    (highlight : Option (List (String × HighlightVal)))
    (airport : Option (String ⊕ Airport)) (kwargs : Dict) :
    traffic_map_leaflet airports g traffic zoom highlight airport kwargs ≠
      Except.ok none ∧
    ((∀ f ∈ traffic.flights, hasValidLatitude f = true → f.shape ≠ none) →
      isOkSomeMap
        (traffic_map_leaflet airports g traffic zoom highlight airport kwargs) =
        true) ∧
    (∀ g2 hl m f, hasValidLatitude f = false →
      traffic_flight_step g2 hl m f = .ok (hl.foldl (highlight_step g2 f) m)) := by
  refine ⟨?_, ?_, fun g2 hl m f h => traffic_flight_step_skip g2 hl m f h⟩
  · cases hfold : traffic.flights.foldlM
        (traffic_flight_step g (highlight.getD []))
        (trafficInitMap airports traffic zoom airport kwargs) with
    | error e => simp [traffic_map_leaflet, hfold]
    | ok m2 => simp [traffic_map_leaflet, hfold]
  · intro h
    obtain ⟨m2, hm2⟩ := foldlM_traffic_ok g (highlight.getD []) traffic.flights h
      (trafficInitMap airports traffic zoom airport kwargs)
    simp [traffic_map_leaflet, hm2, isOkSomeMap]

/-- Witness for C8: a traffic mixing a shaped flight and an all-NaN
flight produces a map, and the skipped flight leaves the map unchanged
when the highlight dictionary is empty. -/
theorem C8_witness :
    isOkSomeMap
        (traffic_map_leaflet exAirportsDB exGetattr
          { flights := [exShapedFlight, exNaNFlight] } 7 none none []) =
      true ∧
    traffic_flight_step exGetattr [] exMap exNaNFlight = Except.ok exMap :=
  ⟨(C8_traffic_map_leaflet exAirportsDB exGetattr
        { flights := [exShapedFlight, exNaNFlight] } 7 none none []).2.1
      (by decide),
    (C8_traffic_map_leaflet exAirportsDB exGetattr
        { flights := [exShapedFlight, exNaNFlight] } 7 none none []).2.2
      exGetattr [] exMap exNaNFlight rfl⟩
